import Mathlib

set_option maxRecDepth 4000

namespace MeteoLux

/-- Decoded JSON values, as produced by the JSON decoder of the HTTP response.
Numbers carry the exact rational value the decoder produced, so numeric
comparisons below coincide with the comparisons the program performs on the
decoded values. -/
inductive Json where
  | null : Json
  | bool (b : Bool) : Json
  | num (q : Rat) : Json
  | str (s : String) : Json
  | arr (elems : List Json) : Json
  | obj (fields : List (String × Json)) : Json

/-- Key lookup in a decoded JSON object (keys are unique in a decoded object). -/
def lookupField : List (String × Json) → String → Option Json
  | [], _ => none
  | (k, v) :: rest, key => if k = key then some v else lookupField rest key

/-- Lookup of a key in a JSON value; only objects have keys. -/
def Json.lookup : Json → String → Option Json
  | .obj fields, key => lookupField fields key
  | _, _ => none

/-- Kinds of per-field validation errors raised by the model validation layer
(pydantic): missing required field, wrong input type, violated numeric or
length constraint, value outside a literal set, unparsable date, or no union
member matching. -/
inductive VErrKind where
  | missing : VErrKind
  | intType : VErrKind
  | floatType : VErrKind
  | strType : VErrKind
  | boolType : VErrKind
  | listType : VErrKind
  | dictType : VErrKind
  | intFromFloat : VErrKind
  | geConstraint (limit : Rat) : VErrKind
  | leConstraint (limit : Rat) : VErrKind
  | maxLengthConstraint (limit : Nat) : VErrKind
  | literalConstraint (allowed : List String) : VErrKind
  | intLiteralConstraint (allowed : List Int) : VErrKind
  | dateParseFailed : VErrKind
  | datetimeParseFailed : VErrKind
  | unionMismatch : VErrKind
deriving DecidableEq

/-- One validation error: the location path of the offending field (wire names
and list indices, as reported by pydantic) and the kind of failure. -/
structure VErr where
  loc : List String
  kind : VErrKind
deriving DecidableEq

/-- Errors carried by a failed validation result (empty for a success). -/
def errsOf {α : Type} : Except (List VErr) α → List VErr
  | .error es => es
  | .ok _ => []

/-- Map over the error list of a validation result. -/
def mapErr {α : Type} (f : List VErr → List VErr) : Except (List VErr) α → Except (List VErr) α
  | .error es => .error (f es)
  | .ok a => .ok a

/-- Prepend a path segment to every error location. -/
def prefixLoc (key : String) (es : List VErr) : List VErr :=
  es.map fun e => ⟨key :: e.loc, e.kind⟩

/-- Error-accumulating application: both sides are validated and their error
lists are concatenated in order, matching how pydantic collects the errors of
all fields of a model rather than stopping at the first. -/
def vap {α β : Type} : Except (List VErr) (α → β) → Except (List VErr) α → Except (List VErr) β
  | .ok f, .ok a => .ok (f a)
  | rf, ra => .error (errsOf rf ++ errsOf ra)

/-- Validation of a required model field: the value is looked up under the
given wire key only; absence is a missing-field error naming that key. -/
def reqField {α : Type} (o : Json) (key : String) (f : Json → Except (List VErr) α) :
    Except (List VErr) α :=
  match o.lookup key with
  | none => .error [⟨[key], .missing⟩]
  | some v => mapErr (prefixLoc key) (f v)

/-- Validation of an optional model field with a default: the value is looked
up under the given wire key only; absence yields the declared default. -/
def optField {α : Type} (o : Json) (key : String) (dflt : α) (f : Json → Except (List VErr) α) :
    Except (List VErr) α :=
  match o.lookup key with
  | none => .ok dflt
  | some v => mapErr (prefixLoc key) (f v)

/-- A str field accepts exactly JSON strings (pydantic does not coerce decoded
numbers or booleans to str). -/
def validateStr : Json → Except (List VErr) String
  | .str s => .ok s
  | _ => .error [⟨[], .strType⟩]

/-- A str field with a max_length constraint. -/
def validateStrMax (maxLen : Nat) : Json → Except (List VErr) String
  | .str s => if s.length ≤ maxLen then .ok s else .error [⟨[], .maxLengthConstraint maxLen⟩]
  | _ => .error [⟨[], .strType⟩]

/-- A bool field accepts JSON booleans. String and numeric coercions of lax
mode are not exercised by decoded JSON in this development and are omitted. -/
def validateBool : Json → Except (List VErr) Bool
  | .bool b => .ok b
  | _ => .error [⟨[], .boolType⟩]

/-- An int field accepts a decoded number of integral value (pydantic accepts
a float only when it is integral). Coercion from digit strings is not
exercised in this development and is omitted. -/
def validateInt : Json → Except (List VErr) Int
  | .num q => if q.den = 1 then .ok q.num else .error [⟨[], .intFromFloat⟩]
  | _ => .error [⟨[], .intType⟩]

/-- A float field accepts any decoded number. -/
def validateFloat : Json → Except (List VErr) Rat
  | .num q => .ok q
  | _ => .error [⟨[], .floatType⟩]

/-- A float field with ge and le range constraints, as declared by Field(...,
ge, le): a value below the lower bound violates the ge constraint, a value
above the upper bound violates the le constraint. -/
def validateFloatRange (lo hi : Rat) : Json → Except (List VErr) Rat
  | .num q =>
      if q < lo then .error [⟨[], .geConstraint lo⟩]
      else if hi < q then .error [⟨[], .leConstraint hi⟩]
      else .ok q
  | _ => .error [⟨[], .floatType⟩]

/-- A float field with only a ge constraint. -/
def validateFloatGe (lo : Rat) : Json → Except (List VErr) Rat
  | .num q => if q < lo then .error [⟨[], .geConstraint lo⟩] else .ok q
  | _ => .error [⟨[], .floatType⟩]

/-- A Literal field over strings: the value must be a member of the declared
set, with no coercion. -/
def validateLiteralStr (allowed : List String) : Json → Except (List VErr) String
  | .str s => if s ∈ allowed then .ok s else .error [⟨[], .literalConstraint allowed⟩]
  | _ => .error [⟨[], .literalConstraint allowed⟩]

/-- A Literal field over integers: the value must be an integral number that
is a member of the declared set. -/
def validateLiteralInt (allowed : List Int) : Json → Except (List VErr) Int
  | .num q =>
      if q.den = 1 ∧ q.num ∈ allowed then .ok q.num
      else .error [⟨[], .intLiteralConstraint allowed⟩]
  | _ => .error [⟨[], .intLiteralConstraint allowed⟩]

/-- Validation of the elements of a list field, indexed from the given
position; element errors are located under the element index, and the errors
of all elements are collected. -/
def validateElems {α : Type} (f : Json → Except (List VErr) α) :
    Nat → List Json → Except (List VErr) (List α)
  | _, [] => .ok []
  | i, x :: xs =>
      vap (vap (.ok List.cons) (mapErr (prefixLoc (toString i)) (f x)))
        (validateElems f (i + 1) xs)

/-- A list field: the value must be a JSON array, whose elements are validated
in order. -/
def validateListOf {α : Type} (f : Json → Except (List VErr) α) :
    Json → Except (List VErr) (List α)
  | .arr xs => validateElems f 0 xs
  | _ => .error [⟨[], .listType⟩]

/-- Validation of the entries of a dict of strings, keeping entry order. -/
def validateStrPairs : List (String × Json) → Except (List VErr) (List (String × String))
  | [] => .ok []
  | (k, v) :: rest =>
      vap (vap (.ok (fun s r => (k, s) :: r)) (mapErr (prefixLoc k) (validateStr v)))
        (validateStrPairs rest)

/-- A dict of str to str field: the value must be a JSON object with string
values. -/
def validateStrDict : Json → Except (List VErr) (List (String × String))
  | .obj kvs => validateStrPairs kvs
  | _ => .error [⟨[], .dictType⟩]

/-- An Optional field: null validates to none, any other value is validated
by the inner validator. -/
def validateOpt {α : Type} (f : Json → Except (List VErr) α) :
    Json → Except (List VErr) (Option α)
  | .null => .ok none
  | v => (f v).map some

/-- A calendar date, the validated value of a date field. -/
structure Date where
  year : Nat
  month : Nat
  day : Nat
deriving DecidableEq

/-- Numeric value of two decimal digit characters, when both are digits. -/
def twoDigits (a b : Char) : Option Nat :=
  if a.isDigit ∧ b.isDigit then some ((a.toNat - 48) * 10 + (b.toNat - 48)) else none

/-- Numeric value of four decimal digit characters, when all are digits. -/
def fourDigits (a b c d : Char) : Option Nat :=
  if a.isDigit ∧ b.isDigit ∧ c.isDigit ∧ d.isDigit then
    some ((((a.toNat - 48) * 10 + (b.toNat - 48)) * 10 + (c.toNat - 48)) * 10 + (d.toNat - 48))
  else none

/-- Gregorian leap year test. -/
def isLeapYear (y : Nat) : Bool :=
  (y % 4 == 0 && y % 100 != 0) || y % 400 == 0

/-- Number of days of a month. -/
def daysInMonth (y m : Nat) : Nat :=
  if m = 2 then (if isLeapYear y then 29 else 28)
  else if m ∈ [4, 6, 9, 11] then 30
  else 31

/-- Builds a date when the components form a valid calendar date in the year
range the program accepts. -/
def mkDate (y m d : Nat) : Option Date :=
  if 1 ≤ y ∧ y ≤ 9999 ∧ 1 ≤ m ∧ m ≤ 12 ∧ 1 ≤ d ∧ d ≤ daysInMonth y m then some ⟨y, m, d⟩
  else none

/-- Parse of an ISO extended date, YYYY-MM-DD, from the characters of the
input string. -/
def parseDateChars : List Char → Option Date
  | [y1, y2, y3, y4, '-', m1, m2, '-', d1, d2] => do
      let y ← fourDigits y1 y2 y3 y4
      let m ← twoDigits m1 m2
      let d ← twoDigits d1 d2
      mkDate y m d
  | _ => none

/-- Parse of an ISO extended date from a string. -/
def parseDate (s : String) : Option Date := parseDateChars s.data

/-- A point in time, the validated value of a datetime field: date, time of
day to microsecond precision, and optional UTC offset in minutes. -/
structure Datetime where
  date : Date
  hour : Nat
  minute : Nat
  second : Nat
  microsecond : Nat
  tzOffsetMinutes : Option Int
deriving DecidableEq

/-- Leading decimal digits of a character list, and the remaining characters. -/
def takeDigits : List Char → List Char × List Char
  | [] => ([], [])
  | c :: cs =>
      if c.isDigit then
        match takeDigits cs with
        | (ds, rest) => (c :: ds, rest)
      else ([], c :: cs)

/-- Numeric value of a list of decimal digit characters. -/
def digitsToNat (ds : List Char) : Nat :=
  ds.foldl (fun acc c => acc * 10 + (c.toNat - 48)) 0

/-- Parse of the HH:MM tail of a numeric UTC offset, in minutes. -/
def parseOffsetHM : List Char → Option Nat
  | [h1, h2, ':', m1, m2] => do
      let h ← twoDigits h1 h2
      let m ← twoDigits m1 m2
      if h ≤ 23 ∧ m ≤ 59 then some (h * 60 + m) else none
  | _ => none

/-- Parse of an optional trailing UTC offset: nothing, Z, or a signed HH:MM
offset. -/
def parseOffset : List Char → Option (Option Int)
  | [] => some none
  | ['Z'] => some (some 0)
  | '+' :: rest => (parseOffsetHM rest).map (fun n => some (n : Int))
  | '-' :: rest => (parseOffsetHM rest).map (fun n => some (-(n : Int)))
  | _ => none

/-- Parse of the time-of-day part of an ISO datetime: HH:MM, optional seconds,
optional fractional seconds of at most six digits, optional UTC offset. -/
def parseTimeChars : List Char → Option (Nat × Nat × Nat × Nat × Option Int)
  | h1 :: h2 :: ':' :: n1 :: n2 :: rest => do
      let h ← twoDigits h1 h2
      let n ← twoDigits n1 n2
      if h ≤ 23 ∧ n ≤ 59 then
        match rest with
        | ':' :: s1 :: s2 :: rest2 => do
            let s ← twoDigits s1 s2
            if s ≤ 59 then
              match rest2 with
              | '.' :: rest3 =>
                  match takeDigits rest3 with
                  | (ds, rest4) =>
                    if 1 ≤ ds.length ∧ ds.length ≤ 6 then do
                      let off ← parseOffset rest4
                      some (h, n, s, digitsToNat ds * 10 ^ (6 - ds.length), off)
                    else none
              | _ => do
                  let off ← parseOffset rest2
                  some (h, n, s, 0, off)
            else none
        | _ => do
            let off ← parseOffset rest
            some (h, n, 0, 0, off)
      else none
  | _ => none

/-- Parse of an ISO datetime from the characters of the input string: a date,
a T or space separator, a time of day. Numeric epoch inputs for datetime
fields are not exercised in this development and are omitted. -/
def parseDatetimeChars : List Char → Option Datetime
  | y1 :: y2 :: y3 :: y4 :: '-' :: m1 :: m2 :: '-' :: d1 :: d2 :: sep :: rest =>
      if sep = 'T' ∨ sep = ' ' then do
        let y ← fourDigits y1 y2 y3 y4
        let mo ← twoDigits m1 m2
        let da ← twoDigits d1 d2
        let dt ← mkDate y mo da
        let t ← parseTimeChars rest
        some ⟨dt, t.1, t.2.1, t.2.2.1, t.2.2.2.1, t.2.2.2.2⟩
      else none
  | _ => none

/-- Parse of an ISO datetime from a string. -/
def parseDatetime (s : String) : Option Datetime := parseDatetimeChars s.data

/-- A date field accepts an ISO date string. -/
def validateDate : Json → Except (List VErr) Date
  | .str s =>
      match parseDate s with
      | some d => .ok d
      | none => .error [⟨[], .dateParseFailed⟩]
  | _ => .error [⟨[], .dateParseFailed⟩]

/-- A datetime field accepts an ISO datetime string. -/
def validateDatetime : Json → Except (List VErr) Datetime
  | .str s =>
      match parseDatetime s with
      | some d => .ok d
      | none => .error [⟨[], .datetimeParseFailed⟩]
  | _ => .error [⟨[], .datetimeParseFailed⟩]

/-- Validated value of the field temperature of the model Temperature, typed
Union[int, list[int]] in the source: a tagged sum recording which union
member matched. -/
inductive IntOrListInt where
  | int (n : Int) : IntOrListInt
  | list (ns : List Int) : IntOrListInt
deriving DecidableEq

/-- Union[int, list[int]] validation: an integral number matches the int
member, an array of integral numbers matches the list member; the matching
member is recorded in the constructor, with no cross-member coercion. -/
def validateIntOrListInt : Json → Except (List VErr) IntOrListInt
  | .num q => if q.den = 1 then .ok (.int q.num) else .error [⟨[], .unionMismatch⟩]
  | .arr xs => (validateElems validateInt 0 xs).map .list
  | _ => .error [⟨[], .unionMismatch⟩]

/-- Validated value of the field date of the model RoadStatusItem, typed
Union[date, list[str]] in the source: a tagged sum recording which union
member matched. -/
inductive DateOrListStr where
  | date (d : Date) : DateOrListStr
  | strs (ss : List String) : DateOrListStr
deriving DecidableEq

/-- Union[date, list[str]] validation: a string parsing as an ISO date
matches the date member, an array of strings matches the list member; the
matching member is recorded in the constructor. -/
def validateDateOrListStr : Json → Except (List VErr) DateOrListStr
  | .str s =>
      match parseDate s with
      | some d => .ok (.date d)
      | none => .error [⟨[], .unionMismatch⟩]
  | .arr xs => (validateElems validateStr 0 xs).map .strs
  | _ => .error [⟨[], .unionMismatch⟩]

/-- Temperature model: temperature Union[int, list[int]], humidex Optional
str, felt Optional int. -/
structure Temperature where
  temperature : IntOrListInt
  humidex : Option String
  felt : Option Int
deriving DecidableEq

/-- Validation of the Temperature model. -/
def validateTemperature (j : Json) : Except (List VErr) Temperature :=
  match j with
  | .obj _ =>
      vap (vap (vap (.ok Temperature.mk)
        (reqField j "temperature" validateIntOrListInt))
        (optField j "humidex" none (validateOpt validateStr)))
        (optField j "felt" none (validateOpt validateInt))
  | _ => .error [⟨[], .dictType⟩]

/-- RoadStatusItem model: date Union[date, list[str]], description str. -/
structure RoadStatusItem where
  date : DateOrListStr
  description : String
deriving DecidableEq

/-- Validation of the RoadStatusItem model. -/
def validateRoadStatusItem (j : Json) : Except (List VErr) RoadStatusItem :=
  match j with
  | .obj _ =>
      vap (vap (.ok RoadStatusItem.mk)
        (reqField j "date" validateDateOrListStr))
        (reqField j "description" validateStr)
  | _ => .error [⟨[], .dictType⟩]

/-- InObservation model: lat float in the range -90 to 90, long float in the
range -180 to 180, description str of max length 1024, weather int. -/
structure InObservation where
  lat : Rat
  long : Rat
  description : String
  weather : Int
deriving DecidableEq

/-- Validation of the InObservation model. -/
def validateInObservation (j : Json) : Except (List VErr) InObservation :=
  match j with
  | .obj _ =>
      vap (vap (vap (vap (.ok InObservation.mk)
        (reqField j "lat" (validateFloatRange (-90) 90)))
        (reqField j "long" (validateFloatRange (-180) 180)))
        (reqField j "description" (validateStrMax 1024)))
        (reqField j "weather" validateInt)
  | _ => .error [⟨[], .dictType⟩]

/-- SensorLevel model: level_type Literal, wire name levelType; unit Literal;
value float with ge 0. -/
structure SensorLevel where
  level_type : String
  unit : String
  value : Rat
deriving DecidableEq

/-- Validation of the SensorLevel model. -/
def validateSensorLevel (j : Json) : Except (List VErr) SensorLevel :=
  match j with
  | .obj _ =>
      vap (vap (vap (.ok SensorLevel.mk)
        (reqField j "levelType" (validateLiteralStr ["height_above_ground"])))
        (reqField j "unit" (validateLiteralStr ["m"])))
        (reqField j "value" (validateFloatGe 0))
  | _ => .error [⟨[], .dictType⟩]

/-- ObservationMetadata model: the sensor definition, with literal-typed
enumerated fields and wire aliases dataType and performanceCategory. -/
structure ObservationMetadata where
  id : String
  name : String
  description : String
  data_type : String
  unit : String
  category : String
  performance_category : String
  qualitycode : Int
  timeoffsets : String
  timeresolution : String
  sensorlevels : Option SensorLevel
deriving DecidableEq

/-- Validation of the ObservationMetadata model. -/
def validateObservationMetadata (j : Json) : Except (List VErr) ObservationMetadata :=
  match j with
  | .obj _ =>
      vap (vap (vap (vap (vap (vap (vap (vap (vap (vap (vap (.ok ObservationMetadata.mk)
        (reqField j "id" validateStr))
        (reqField j "name" validateStr))
        (reqField j "description" validateStr))
        (reqField j "dataType" (validateLiteralStr ["realtime", "climate"])))
        (reqField j "unit" (validateLiteralStr
          ["m", "m/s", "%", "1/10 kt", "degC", "degrees", "ft", "hPa", "mm"])))
        (reqField j "category" (validateLiteralStr
          ["Wind", "Cloud Cover", "Atmospheric pressure", "Precipitation",
           "Temperature", "Humidity", "Visibility"])))
        (reqField j "performanceCategory" (validateLiteralStr ["A", "B", "C", "D", "E"])))
        (reqField j "qualitycode" (validateLiteralInt [0, 1, 2, 3, 4, 5, 6, 7])))
        (reqField j "timeoffsets" (validateLiteralStr ["PT0H"])))
        (reqField j "timeresolution" (validateLiteralStr ["PT1M", "PT1H"])))
        (optField j "sensorlevels" none (validateOpt validateSensorLevel))
  | _ => .error [⟨[], .dictType⟩]

/-- Declared default of the licence fields. -/
def defaultLicence : List String :=
  ["Creative Commons", "https://creativecommons.org/public-domain/cc0/"]

/-- Declared default of the quality_codes field. -/
def defaultQualityCodes : List (String × String) :=
  [("0", "Value is controlled and found O.K.")]

/-- Declared default of the performance_category field. -/
def defaultPerformanceCategory : List (String × String) :=
  [("A", "The sensor type fulfills the requirements from WMO/CIMOs on measurement accuracy, calibration and maintenance.")]

/-- ObservationMetadataResponse model: licence with a structured default,
doc_url with wire name docUrl and default, required data list,
total_item_count with wire name totalItemCount and default 1, quality_codes
and performance_category dicts with wire aliases and defaults. -/
structure ObservationMetadataResponse where
  licence : List String
  doc_url : String
  data : List ObservationMetadata
  total_item_count : Int
  quality_codes : List (String × String)
  performance_category : List (String × String)
deriving DecidableEq

/-- Validation of the ObservationMetadataResponse model. -/
def validateObservationMetadataResponse (j : Json) :
    Except (List VErr) ObservationMetadataResponse :=
  match j with
  | .obj _ =>
      vap (vap (vap (vap (vap (vap (.ok ObservationMetadataResponse.mk)
        (optField j "licence" defaultLicence (validateListOf validateStr)))
        (optField j "docUrl" "/docs" validateStr))
        (reqField j "data" (validateListOf validateObservationMetadata)))
        (optField j "totalItemCount" 1 validateInt))
        (optField j "qualityCodes" defaultQualityCodes validateStrDict))
        (optField j "performanceCategory" defaultPerformanceCategory validateStrDict)
  | _ => .error [⟨[], .dictType⟩]

/-- Union[int, float] validation for observation values: an integral number
matches the int member, any other number matches the float member. -/
def validateIntOrFloat : Json → Except (List VErr) (Sum Int Rat)
  | .num q => if q.den = 1 then .ok (.inl q.num) else .ok (.inr q)
  | _ => .error [⟨[], .unionMismatch⟩]

/-- ObservationResponseData model: id str, value Union[int, float]. -/
structure ObservationResponseData where
  id : String
  value : Sum Int Rat
deriving DecidableEq

/-- Validation of the ObservationResponseData model. -/
def validateObservationResponseData (j : Json) : Except (List VErr) ObservationResponseData :=
  match j with
  | .obj _ =>
      vap (vap (.ok ObservationResponseData.mk)
        (reqField j "id" validateStr))
        (reqField j "value" validateIntOrFloat)
  | _ => .error [⟨[], .dictType⟩]

/-- ObservationResponse model: licence and doc_url and total_item_count with
defaults and aliases as in ObservationMetadataResponse, required data list,
required timestamp datetime. -/
structure ObservationResponse where
  licence : List String
  doc_url : String
  data : List ObservationResponseData
  total_item_count : Int
  timestamp : Datetime
deriving DecidableEq

/-- Validation of the ObservationResponse model. -/
def validateObservationResponse (j : Json) : Except (List VErr) ObservationResponse :=
  match j with
  | .obj _ =>
      vap (vap (vap (vap (vap (.ok ObservationResponse.mk)
        (optField j "licence" defaultLicence (validateListOf validateStr)))
        (optField j "docUrl" "/docs" validateStr))
        (reqField j "data" (validateListOf validateObservationResponseData)))
        (optField j "totalItemCount" 1 validateInt))
        (reqField j "timestamp" validateDatetime)
  | _ => .error [⟨[], .dictType⟩]

/-- VigilanceSettings model: required level Literal, optional notification
type booleans defaulting to false under wire aliases, optional type_wind
under wire alias typeWind defaulting to none, required zone_north and
zone_south under wire aliases zoneNorth and zoneSouth. -/
structure VigilanceSettings where
  level : Int
  type_air : Bool
  type_cold : Bool
  type_flooding : Bool
  type_heat : Bool
  type_ice : Bool
  type_rain : Bool
  type_snow : Bool
  type_storm : Bool
  type_wind : Option Bool
  zone_north : Bool
  zone_south : Bool
deriving DecidableEq

/-- Validation of the VigilanceSettings model. -/
def validateVigilanceSettings (j : Json) : Except (List VErr) VigilanceSettings :=
  match j with
  | .obj _ =>
      vap (vap (vap (vap (vap (vap (vap (vap (vap (vap (vap (vap (.ok VigilanceSettings.mk)
        (reqField j "level" (validateLiteralInt [2, 3, 4])))
        (optField j "typeAir" false validateBool))
        (optField j "typeCold" false validateBool))
        (optField j "typeFlooding" false validateBool))
        (optField j "typeHeat" false validateBool))
        (optField j "typeIce" false validateBool))
        (optField j "typeRain" false validateBool))
        (optField j "typeSnow" false validateBool))
        (optField j "typeStorm" false validateBool))
        (optField j "typeWind" none (validateOpt validateBool)))
        (reqField j "zoneNorth" validateBool))
        (reqField j "zoneSouth" validateBool)
  | _ => .error [⟨[], .dictType⟩]

/-- A transport response as the request layer observes it: the status code,
the raw body text, and the outcome of asking the transport to decode the body
as JSON (none when the body is not valid JSON, in which case that decoding
raises). -/
structure Response where
  statusCode : Nat
  text : String
  jsonBody : Option Json

/-- The distinguishable failures a call can surface: the NotFoundError of the
library, the re-raised HTTPStatusError of the transport, the HTTPError and
ValidationError classes the library declares in its exceptions module, the
JSONDecodeError of the JSON decoder, the unwrapped ValidationError of the
model validation layer, and the re-raised RequestError of the transport. -/
inductive ReqError where
  | notFoundError (detail : String) : ReqError
  | httpStatusError (statusCode : Nat) (text : String) : ReqError
  | meteoluxHTTPError (statusCode : Nat) (detail : String) : ReqError
  | meteoluxValidationError (detail : String) : ReqError
  | jsonDecodeError : ReqError
  | pydanticValidationError (errs : List VErr) : ReqError
  | requestError : ReqError
deriving DecidableEq

/-- A successful call returns None after a no-content response, the decoded
JSON when no response model was supplied, or the validated model instance. -/
inductive ReqValue (α : Type) where
  | unit : ReqValue α
  | raw (j : Json) : ReqValue α
  | model (a : α) : ReqValue α

/-- Success test of a status code, as the transport defines it: the call to
raise an exception for a status raises exactly on the non-2xx codes. -/
def isSuccess (code : Nat) : Bool := 200 ≤ code && code ≤ 299

/-- The request funnel of the client: transport failure is re-raised; a
non-2xx status raises, mapped to NotFoundError when the status is 404 and
re-raised otherwise; a 204 returns None before the body is read; otherwise
the body is decoded as JSON and, when a response model was supplied, the
model is validated and a validation failure propagates unwrapped. -/
def clientRequest {α : Type} (resp : Option Response)
    (respModel : Option (Json → Except (List VErr) α)) : Except ReqError (ReqValue α) :=
  match resp with
  | none => .error .requestError
  | some r =>
      if isSuccess r.statusCode then
        if r.statusCode = 204 then .ok .unit
        else
          match r.jsonBody with
          | none => .error .jsonDecodeError
          | some data =>
              match respModel with
              | some f =>
                  match f data with
                  | .ok a => .ok (.model a)
                  | .error es => .error (.pydanticValidationError es)
              | none => .ok (.raw data)
      else if r.statusCode = 404 then .error (.notFoundError r.text)
      else .error (.httpStatusError r.statusCode r.text)

/-- The error a call surfaced, when it failed. -/
def errOf {α : Type} : Except ReqError (ReqValue α) → Option ReqError
  | .error e => some e
  | .ok _ => none

/-- Recognizes the HTTPError class declared by the exceptions module of the
library. -/
def isMeteoluxHTTPError : ReqError → Bool
  | .meteoluxHTTPError _ _ => true
  | _ => false

/-- Recognizes the ValidationError class declared by the exceptions module of
the library. -/
def isMeteoluxValidationError : ReqError → Bool
  | .meteoluxValidationError _ => true
  | _ => false

/-- The decoded metadata entry of the observations-metadata example exchange. -/
def airTemperatureEntry : Json :=
  .obj [("id", .str "air_temperature"), ("name", .str "Air Temperature"),
        ("description", .str "Temperature of the air at 2 m height"),
        ("dataType", .str "realtime"), ("unit", .str "degC"),
        ("category", .str "Temperature"), ("performanceCategory", .str "A"),
        ("qualitycode", .num 0), ("timeoffsets", .str "PT0H"),
        ("timeresolution", .str "PT1M"),
        ("sensorlevels", .obj [("levelType", .str "height_above_ground"),
                               ("unit", .str "m"), ("value", .num 2)])]

/-- The validated record of the metadata entry above. -/
def airTemperatureMeta : ObservationMetadata :=
  ⟨"air_temperature", "Air Temperature", "Temperature of the air at 2 m height", "realtime",
   "degC", "Temperature", "A", 0, "PT0H", "PT1M", some ⟨"height_above_ground", "m", 2⟩⟩

theorem vap_ok_ok {α β : Type} (f : α → β) (a : α) :
    vap (.ok f) (.ok a) = .ok (f a) := rfl

theorem vap_error_right {α β : Type} (rf : Except (List VErr) (α → β)) (es : List VErr) :
    vap rf (.error es) = .error (errsOf rf ++ es) := by
  cases rf <;> rfl

theorem vap_error_left {α β : Type} (es : List VErr) (ra : Except (List VErr) α) :
    vap (Except.error es : Except (List VErr) (α → β)) ra = .error (es ++ errsOf ra) := by
  cases ra <;> rfl

theorem reqField_ok {α : Type} {o : Json} {k : String} {f : Json → Except (List VErr) α}
    {v : Json} {a : α} (hl : o.lookup k = some v) (hf : f v = .ok a) :
    reqField o k f = .ok a := by
  simp [reqField, hl, hf, mapErr]

theorem reqField_error {α : Type} {o : Json} {k : String} {f : Json → Except (List VErr) α}
    {v : Json} {es : List VErr} (hl : o.lookup k = some v) (hf : f v = .error es) :
    reqField o k f = .error (prefixLoc k es) := by
  simp [reqField, hl, hf, mapErr]

theorem reqField_missing {α : Type} {o : Json} {k : String} {f : Json → Except (List VErr) α}
    (hl : o.lookup k = none) : reqField o k f = .error [⟨[k], .missing⟩] := by
  simp [reqField, hl]

theorem optField_default {α : Type} {o : Json} {k : String} {dflt : α}
    {f : Json → Except (List VErr) α} (hl : o.lookup k = none) :
    optField o k dflt f = .ok dflt := by
  simp [optField, hl]

theorem optField_ok {α : Type} {o : Json} {k : String} {dflt : α}
    {f : Json → Except (List VErr) α} {v : Json} {a : α}
    (hl : o.lookup k = some v) (hf : f v = .ok a) :
    optField o k dflt f = .ok a := by
  simp [optField, hl, hf, mapErr]

theorem validateElems_str (i : Nat) (l : List String) :
    validateElems validateStr i (l.map Json.str) = .ok l := by
  induction l generalizing i with
  | nil => rfl
  | cons x xs ih => simp [validateElems, validateStr, mapErr, vap, ih]

theorem validateStrPairs_map (l : List (String × String)) :
    validateStrPairs (l.map fun p => (p.1, Json.str p.2)) = .ok l := by
  induction l with
  | nil => rfl
  | cons x xs ih => simp [validateStrPairs, validateStr, mapErr, vap, ih]

theorem validateInt_intCast (n : Int) : validateInt (.num (n : Rat)) = .ok n := by
  simp [validateInt]

theorem validateStr_str (s : String) : validateStr (.str s) = .ok s := rfl

theorem validateElems_int (i : Nat) (l : List Int) :
    validateElems validateInt i (l.map fun m : Int => Json.num (m : Rat)) = .ok l := by
  induction l generalizing i with
  | nil => rfl
  | cons x xs ih =>
      simp only [List.map_cons, validateElems, validateInt_intCast, mapErr, ih, vap]

/-- C1: for every request, a response whose status code is 404 makes the call
fail by raising NotFoundError, and the detail field of the error equals the
raw text of the response body. -/
theorem claim_C1_notFound {α : Type} (r : Response)
    (m : Option (Json → Except (List VErr) α)) (h : r.statusCode = 404) :
    clientRequest (some r) m = .error (.notFoundError r.text) := by
  simp [clientRequest, h, isSuccess]

theorem claim_C1_witness :
    clientRequest (some ⟨404, "missing page", none⟩)
        (some validateObservationMetadataResponse)
      = .error (.notFoundError "missing page") :=
  claim_C1_notFound ⟨404, "missing page", none⟩ (some validateObservationMetadataResponse) rfl

/-- C2 as stated is false on the code: at status 500 the call re-raises the
HTTPStatusError of the transport, and the error raised is not the HTTPError
class of the exceptions module of the library, which the request funnel never
raises. -/
theorem claim_C2_counterexample :
    errOf (clientRequest (some ⟨500, "server exploded", none⟩)
        (some validateObservationMetadataResponse))
      = some (.httpStatusError 500 "server exploded") ∧
    (errOf (clientRequest (some ⟨500, "server exploded", none⟩)
        (some validateObservationMetadataResponse))).map isMeteoluxHTTPError
      = some false :=
  ⟨rfl, rfl⟩

/-- C2 amended: for every request, a response whose status is a non-success
status other than 404 makes the call fail by re-raising the HTTPStatusError
of the transport, which carries that status code and the response body text;
the HTTPError class of the library is not used. -/
theorem claim_C2_amended {α : Type} (r : Response)
    (m : Option (Json → Except (List VErr) α))
    (hs : isSuccess r.statusCode = false) (h404 : r.statusCode ≠ 404) :
    clientRequest (some r) m = .error (.httpStatusError r.statusCode r.text) := by
  simp [clientRequest, hs, h404]

theorem claim_C2_witness :
    clientRequest (some ⟨500, "server exploded", none⟩)
        (some validateObservationMetadataResponse)
      = .error (.httpStatusError 500 "server exploded") :=
  claim_C2_amended ⟨500, "server exploded", none⟩ (some validateObservationMetadataResponse)
    rfl (by decide)

/-- C3: for every request, a response with status code 204 makes the call
return None without reading or parsing the body, whatever the body holds,
whether or not it is valid JSON, and whether or not a response model was
supplied. -/
theorem claim_C3_noContent {α : Type} (r : Response)
    (m : Option (Json → Except (List VErr) α)) (h : r.statusCode = 204) :
    clientRequest (some r) m = .ok .unit := by
  simp [clientRequest, h, isSuccess]

theorem claim_C3_witness :
    clientRequest (some ⟨204, "garbage that is not json", none⟩)
        (some validateObservationMetadataResponse)
      = .ok .unit :=
  claim_C3_noContent ⟨204, "garbage that is not json", none⟩
    (some validateObservationMetadataResponse) rfl

/-- C4 as stated is false on the code: on a 200 response whose decoded body
does not satisfy the supplied model, the call fails with the unwrapped
validation error of the model validation layer, and not with the
ValidationError class of the exceptions module of the library, which the
request funnel never raises. -/
theorem claim_C4_counterexample :
    errOf (clientRequest (some ⟨200, "empty object", some (Json.obj [])⟩)
        (some validateObservationResponse))
      = some (.pydanticValidationError [⟨["data"], .missing⟩, ⟨["timestamp"], .missing⟩]) ∧
    (errOf (clientRequest (some ⟨200, "empty object", some (Json.obj [])⟩)
        (some validateObservationResponse))).map isMeteoluxValidationError
      = some false :=
  ⟨rfl, rfl⟩

/-- C4 amended: for every request with a response model supplied, a success
response other than 204 whose decoded JSON body fails the model validation
makes the call fail with the unwrapped validation error of the validation
machinery, carrying exactly the per-field errors that the validation
produced. -/
theorem claim_C4_amended {α : Type} (r : Response) (f : Json → Except (List VErr) α)
    (d : Json) (es : List VErr) (hs : isSuccess r.statusCode = true)
    (h204 : r.statusCode ≠ 204) (hb : r.jsonBody = some d) (hf : f d = .error es) :
    clientRequest (some r) (some f) = .error (.pydanticValidationError es) := by
  simp [clientRequest, hs, h204, hb, hf]

theorem claim_C4_witness :
    clientRequest (some ⟨200, "empty object", some (Json.obj [])⟩)
        (some validateObservationResponse)
      = .error (.pydanticValidationError [⟨["data"], .missing⟩, ⟨["timestamp"], .missing⟩]) :=
  claim_C4_amended ⟨200, "empty object", some (Json.obj [])⟩ validateObservationResponse
    (Json.obj []) [⟨["data"], .missing⟩, ⟨["timestamp"], .missing⟩] rfl (by decide) rfl rfl

/-- C5: for every request, a success response other than 204 whose body is
not valid JSON makes the call fail with the error of the JSON decoder, a
kind distinct from the not-found, HTTP-status, schema-validation and
transport kinds of the taxonomy. -/
theorem claim_C5_malformed {α : Type} (r : Response)
    (m : Option (Json → Except (List VErr) α)) (hs : isSuccess r.statusCode = true)
    (h204 : r.statusCode ≠ 204) (hb : r.jsonBody = none) :
    clientRequest (some r) m = .error .jsonDecodeError ∧
    (∀ detail, ReqError.jsonDecodeError ≠ .notFoundError detail) ∧
    (∀ code text, ReqError.jsonDecodeError ≠ .httpStatusError code text) ∧
    (∀ errs, ReqError.jsonDecodeError ≠ .pydanticValidationError errs) ∧
    ReqError.jsonDecodeError ≠ .requestError := by
  refine ⟨by simp [clientRequest, hs, h204, hb], ?_, ?_, ?_, ?_⟩
  · exact fun detail h => ReqError.noConfusion h
  · exact fun code text h => ReqError.noConfusion h
  · exact fun errs h => ReqError.noConfusion h
  · exact fun h => ReqError.noConfusion h

theorem claim_C5_witness :
    clientRequest (some ⟨200, "this is not json", none⟩)
        (some validateObservationMetadataResponse)
      = .error .jsonDecodeError :=
  (claim_C5_malformed ⟨200, "this is not json", none⟩
    (some validateObservationMetadataResponse) rfl (by decide) rfl).1

/-- C6: a JSON object that provides every field of ObservationMetadataResponse
under its wire name, with values of the declared shapes, validates
successfully, and every field of the returned record equals the corresponding
input value, with the wire aliases docUrl, totalItemCount, qualityCodes and
performanceCategory resolved to the internal field names. -/
theorem claim_C6_valid (fields : List (String × Json)) (licence : List String)
    (docUrl : String) (entries : List Json) (metas : List ObservationMetadata)
    (tic : Int) (qc pc : List (String × String))
    (h1 : (Json.obj fields).lookup "licence" = some (.arr (licence.map Json.str)))
    (h2 : (Json.obj fields).lookup "docUrl" = some (.str docUrl))
    (h3 : (Json.obj fields).lookup "data" = some (.arr entries))
    (h4 : (Json.obj fields).lookup "totalItemCount" = some (.num (tic : Rat)))
    (h5 : (Json.obj fields).lookup "qualityCodes"
            = some (.obj (qc.map fun p => (p.1, Json.str p.2))))
    (h6 : (Json.obj fields).lookup "performanceCategory"
            = some (.obj (pc.map fun p => (p.1, Json.str p.2))))
    (hd : validateElems validateObservationMetadata 0 entries = .ok metas) :
    validateObservationMetadataResponse (.obj fields)
      = .ok ⟨licence, docUrl, metas, tic, qc, pc⟩ := by
  have hlic : validateListOf validateStr (Json.arr (licence.map Json.str)) = .ok licence :=
    validateElems_str 0 licence
  have hdata : validateListOf validateObservationMetadata (Json.arr entries) = .ok metas := hd
  have hqc : validateStrDict (Json.obj (qc.map fun p => (p.1, Json.str p.2))) = .ok qc :=
    validateStrPairs_map qc
  have hpc : validateStrDict (Json.obj (pc.map fun p => (p.1, Json.str p.2))) = .ok pc :=
    validateStrPairs_map pc
  simp only [validateObservationMetadataResponse]
  rw [optField_ok h1 hlic, optField_ok h2 (validateStr_str docUrl), reqField_ok h3 hdata,
      optField_ok h4 (validateInt_intCast tic), optField_ok h5 hqc, optField_ok h6 hpc]
  rfl

theorem claim_C6_witness :
    validateObservationMetadataResponse (Json.obj
      [("licence", .arr [.str "Creative Commons",
                         .str "https://creativecommons.org/public-domain/cc0/"]),
       ("docUrl", .str "/docs"),
       ("data", .arr [airTemperatureEntry]),
       ("totalItemCount", .num 1),
       ("qualityCodes", .obj [("0", .str "Value is controlled and found O.K.")]),
       ("performanceCategory", .obj [("A", .str "The sensor type fulfills the requirements from WMO/CIMOs on measurement accuracy, calibration and maintenance.")])])
      = .ok ⟨defaultLicence, "/docs", [airTemperatureMeta], 1,
             defaultQualityCodes, defaultPerformanceCategory⟩ ∧
    [airTemperatureMeta].map ObservationMetadata.name = ["Air Temperature"] ∧
    (1 : Int) = 1 :=
  ⟨claim_C6_valid _ defaultLicence "/docs" [airTemperatureEntry] [airTemperatureMeta] 1
      defaultQualityCodes defaultPerformanceCategory rfl rfl rfl rfl rfl rfl rfl,
   rfl, rfl⟩

/-- C7: a JSON object lacking the required field data of ObservationResponse
fails validation with a missing-field error naming data, and one lacking the
required field timestamp fails with a missing-field error naming timestamp. -/
theorem claim_C7_missingField (fields : List (String × Json)) :
    ((Json.obj fields).lookup "data" = none →
      ∃ es, validateObservationResponse (.obj fields) = .error es ∧
        (⟨["data"], .missing⟩ : VErr) ∈ es) ∧
    ((Json.obj fields).lookup "timestamp" = none →
      ∃ es, validateObservationResponse (.obj fields) = .error es ∧
        (⟨["timestamp"], .missing⟩ : VErr) ∈ es) := by
  constructor
  · intro hl
    simp only [validateObservationResponse]
    rw [reqField_missing hl, vap_error_right, vap_error_left, vap_error_left]
    exact ⟨_, rfl, by simp⟩
  · intro hl
    simp only [validateObservationResponse]
    rw [reqField_missing hl, vap_error_right]
    exact ⟨_, rfl, by simp⟩

theorem claim_C7_witness :
    ∃ es, validateObservationResponse (Json.obj
        [("timestamp", .str "2025-08-02T10:00:00Z")])
      = .error es ∧ (⟨["data"], .missing⟩ : VErr) ∈ es :=
  (claim_C7_missingField [("timestamp", .str "2025-08-02T10:00:00Z")]).1 rfl

/-- C8: an InObservation input whose lat lies outside the range -90 to 90,
whose long lies outside the range -180 to 180, or whose description is longer
than 1024 characters fails validation with a constraint error locating the
field and identifying the violated bound. -/
theorem claim_C8_constraints (fields : List (String × Json)) (q : Rat) :
    ((Json.obj fields).lookup "lat" = some (.num q) → 90 < q →
      ∃ es, validateInObservation (.obj fields) = .error es ∧
        (⟨["lat"], .leConstraint 90⟩ : VErr) ∈ es) ∧
    ((Json.obj fields).lookup "lat" = some (.num q) → q < -90 →
      ∃ es, validateInObservation (.obj fields) = .error es ∧
        (⟨["lat"], .geConstraint (-90)⟩ : VErr) ∈ es) ∧
    ((Json.obj fields).lookup "long" = some (.num q) → 180 < q →
      ∃ es, validateInObservation (.obj fields) = .error es ∧
        (⟨["long"], .leConstraint 180⟩ : VErr) ∈ es) ∧
    ((Json.obj fields).lookup "long" = some (.num q) → q < -180 →
      ∃ es, validateInObservation (.obj fields) = .error es ∧
        (⟨["long"], .geConstraint (-180)⟩ : VErr) ∈ es) ∧
    (∀ s : String, (Json.obj fields).lookup "description" = some (.str s) →
      1024 < s.length →
      ∃ es, validateInObservation (.obj fields) = .error es ∧
        (⟨["description"], .maxLengthConstraint 1024⟩ : VErr) ∈ es) := by
  refine ⟨?_, ?_, ?_, ?_, ?_⟩
  · intro hl hq
    have hv : validateFloatRange (-90) 90 (.num q) = .error [⟨[], .leConstraint 90⟩] := by
      have h1 : ¬(q < -90) := by linarith
      simp [validateFloatRange, h1, hq]
    simp only [validateInObservation]
    rw [reqField_error hl hv, vap_error_right, vap_error_left, vap_error_left, vap_error_left]
    exact ⟨_, rfl, by simp [prefixLoc, errsOf]⟩
  · intro hl hq
    have hv : validateFloatRange (-90) 90 (.num q) = .error [⟨[], .geConstraint (-90)⟩] := by
      simp [validateFloatRange, hq]
    simp only [validateInObservation]
    rw [reqField_error hl hv, vap_error_right, vap_error_left, vap_error_left, vap_error_left]
    exact ⟨_, rfl, by simp [prefixLoc, errsOf]⟩
  · intro hl hq
    have hv : validateFloatRange (-180) 180 (.num q) = .error [⟨[], .leConstraint 180⟩] := by
      have h1 : ¬(q < -180) := by linarith
      simp [validateFloatRange, h1, hq]
    simp only [validateInObservation]
    rw [reqField_error hl hv, vap_error_right, vap_error_left, vap_error_left]
    exact ⟨_, rfl, by simp [prefixLoc, errsOf]⟩
  · intro hl hq
    have hv : validateFloatRange (-180) 180 (.num q) = .error [⟨[], .geConstraint (-180)⟩] := by
      simp [validateFloatRange, hq]
    simp only [validateInObservation]
    rw [reqField_error hl hv, vap_error_right, vap_error_left, vap_error_left]
    exact ⟨_, rfl, by simp [prefixLoc, errsOf]⟩
  · intro s hl hq
    have hv : validateStrMax 1024 (.str s)
        = .error [⟨[], .maxLengthConstraint 1024⟩] := by
      have h1 : ¬(s.length ≤ 1024) := by omega
      simp [validateStrMax, h1]
    simp only [validateInObservation]
    rw [reqField_error hl hv, vap_error_right, vap_error_left]
    exact ⟨_, rfl, by simp [prefixLoc, errsOf]⟩

theorem claim_C8_witness :
    (90 : Rat) < 91 ∧
    ∃ es, validateInObservation (Json.obj
        [("lat", .num 91), ("long", .num 10), ("description", .str "cloudy"),
         ("weather", .num 3)])
      = .error es ∧ (⟨["lat"], .leConstraint 90⟩ : VErr) ∈ es :=
  ⟨by norm_num,
   (claim_C8_constraints [("lat", .num 91), ("long", .num 10), ("description", .str "cloudy"),
      ("weather", .num 3)] 91).1 rfl (by norm_num)⟩

/-- C9: union-typed fields validate to a tagged sum recording which member
matched: for the temperature field of Temperature an integral number yields
the int member holding that value and an array of integral numbers yields the
list member; for the date field of RoadStatusItem a date string yields the
date member and an array of strings yields the list member; no value is
coerced across members. -/
theorem claim_C9_unions (n : Int) (ns : List Int) (t : String) (s : String) (d : Date)
    (ss : List String) :
    validateTemperature (Json.obj [("temperature", .num (n : Rat))])
      = .ok ⟨.int n, none, none⟩ ∧
    validateTemperature (Json.obj
        [("temperature", .arr (ns.map fun m : Int => Json.num (m : Rat)))])
      = .ok ⟨.list ns, none, none⟩ ∧
    (parseDate s = some d →
      validateRoadStatusItem (Json.obj [("date", .str s), ("description", .str t)])
        = .ok ⟨.date d, t⟩) ∧
    validateRoadStatusItem (Json.obj
        [("date", .arr (ss.map Json.str)), ("description", .str t)])
      = .ok ⟨.strs ss, t⟩ := by
  refine ⟨?_, ?_, ?_, ?_⟩
  · have hl1 : (Json.obj [("temperature", Json.num (n : Rat))]).lookup "temperature"
        = some (Json.num (n : Rat)) := rfl
    have hv1 : validateIntOrListInt (Json.num (n : Rat)) = .ok (.int n) := by
      simp [validateIntOrListInt]
    have hl2 : (Json.obj [("temperature", Json.num (n : Rat))]).lookup "humidex" = none := rfl
    have hl3 : (Json.obj [("temperature", Json.num (n : Rat))]).lookup "felt" = none := rfl
    simp only [validateTemperature]
    rw [reqField_ok hl1 hv1, optField_default hl2, optField_default hl3]
    rfl
  · have hl1 : (Json.obj [("temperature",
          Json.arr (ns.map fun m : Int => Json.num (m : Rat)))]).lookup "temperature"
        = some (Json.arr (ns.map fun m : Int => Json.num (m : Rat))) := rfl
    have hv1 : validateIntOrListInt (Json.arr (ns.map fun m : Int => Json.num (m : Rat)))
        = .ok (.list ns) := by
      show (validateElems validateInt 0 (ns.map fun m : Int => Json.num (m : Rat))).map
          IntOrListInt.list = .ok (.list ns)
      rw [validateElems_int]
      rfl
    have hl2 : (Json.obj [("temperature",
          Json.arr (ns.map fun m : Int => Json.num (m : Rat)))]).lookup "humidex" = none := rfl
    have hl3 : (Json.obj [("temperature",
          Json.arr (ns.map fun m : Int => Json.num (m : Rat)))]).lookup "felt" = none := rfl
    simp only [validateTemperature]
    rw [reqField_ok hl1 hv1, optField_default hl2, optField_default hl3]
    rfl
  · intro hp
    have hl1 : (Json.obj [("date", Json.str s), ("description", Json.str t)]).lookup "date"
        = some (Json.str s) := rfl
    have hv1 : validateDateOrListStr (Json.str s) = .ok (.date d) := by
      simp [validateDateOrListStr, hp]
    have hl2 : (Json.obj [("date", Json.str s),
          ("description", Json.str t)]).lookup "description" = some (Json.str t) := rfl
    simp only [validateRoadStatusItem]
    rw [reqField_ok hl1 hv1, reqField_ok hl2 (validateStr_str t)]
    rfl
  · have hl1 : (Json.obj [("date", Json.arr (ss.map Json.str)),
          ("description", Json.str t)]).lookup "date" = some (Json.arr (ss.map Json.str)) := rfl
    have hv1 : validateDateOrListStr (Json.arr (ss.map Json.str)) = .ok (.strs ss) := by
      show (validateElems validateStr 0 (ss.map Json.str)).map DateOrListStr.strs
          = .ok (.strs ss)
      rw [validateElems_str]
      rfl
    have hl2 : (Json.obj [("date", Json.arr (ss.map Json.str)),
          ("description", Json.str t)]).lookup "description" = some (Json.str t) := rfl
    simp only [validateRoadStatusItem]
    rw [reqField_ok hl1 hv1, reqField_ok hl2 (validateStr_str t)]
    rfl

theorem claim_C9_witness :
    validateTemperature (Json.obj [("temperature", .num ((25 : Int) : Rat))])
      = .ok ⟨.int 25, none, none⟩ ∧
    validateRoadStatusItem (Json.obj [("date", .str "2025-08-02"), ("description", .str "clear")])
      = .ok ⟨.date ⟨2025, 8, 2⟩, "clear"⟩ :=
  ⟨(claim_C9_unions 25 [] "clear" "2025-08-02" ⟨2025, 8, 2⟩ []).1,
   (claim_C9_unions 25 [] "clear" "2025-08-02" ⟨2025, 8, 2⟩ []).2.2.1 rfl⟩

/-- C10: validation reads aliased fields only under the wire alias: an
ObservationMetadataResponse input supplying the internal name
total_item_count but not the alias totalItemCount gets the declared default
1 for total_item_count rather than the supplied value, and a
VigilanceSettings input supplying zone_north but not the required alias
zoneNorth fails validation with a missing-field error naming zoneNorth. -/
theorem claim_C10_aliasOnly (fields : List (String × Json)) (v : Json) (entries : List Json)
    (metas : List ObservationMetadata)
    (hinternal : (Json.obj fields).lookup "total_item_count" = some v)
    (halias : (Json.obj fields).lookup "totalItemCount" = none)
    (hlic : (Json.obj fields).lookup "licence" = none)
    (hdoc : (Json.obj fields).lookup "docUrl" = none)
    (hdata : (Json.obj fields).lookup "data" = some (.arr entries))
    (hqc : (Json.obj fields).lookup "qualityCodes" = none)
    (hpc : (Json.obj fields).lookup "performanceCategory" = none)
    (hd : validateElems validateObservationMetadata 0 entries = .ok metas) :
    validateObservationMetadataResponse (.obj fields)
      = .ok ⟨defaultLicence, "/docs", metas, 1, defaultQualityCodes,
             defaultPerformanceCategory⟩ ∧
    (∃ es, validateVigilanceSettings (Json.obj
        [("level", .num 2), ("zone_north", .bool true), ("zoneSouth", .bool true)])
      = .error es ∧ (⟨["zoneNorth"], .missing⟩ : VErr) ∈ es) := by
  constructor
  · have hdl : validateListOf validateObservationMetadata (Json.arr entries) = .ok metas := hd
    simp only [validateObservationMetadataResponse]
    rw [optField_default hlic, optField_default hdoc, reqField_ok hdata hdl,
        optField_default halias, optField_default hqc, optField_default hpc]
    rfl
  · exact ⟨[⟨["zoneNorth"], .missing⟩], rfl, by simp⟩

theorem claim_C10_witness :
    validateObservationMetadataResponse (Json.obj
        [("total_item_count", .num 5), ("data", .arr [airTemperatureEntry])])
      = .ok ⟨defaultLicence, "/docs", [airTemperatureMeta], 1,
             defaultQualityCodes, defaultPerformanceCategory⟩ :=
  (claim_C10_aliasOnly [("total_item_count", .num 5), ("data", .arr [airTemperatureEntry])]
    (.num 5) [airTemperatureEntry] [airTemperatureMeta] rfl rfl rfl rfl rfl rfl rfl rfl).1

end MeteoLux
